import Mathlib

/-!
Verification of the lost-pixel configuration layer (`src/config.ts`).

The configuration file is a JavaScript object validated with zod schemas.
We shallow-embed the JavaScript values the config layer manipulates as the
inductive `JsVal`, the zod combinators actually used by `config.ts` as
parsers `JsVal → Except (List Issue) JsVal`, and the functions
`isPlatformModeConfig`, `printConfigErrors`, `parseConfig` and `configure`
as Lean functions over that embedding.  Side effects are made explicit:
`log.process` output is collected into a list of printed lines and
`process.exit(1)` becomes the `ParseResult.exited` constructor; the I/O
performed by `loadProjectConfig` is replaced by a parameter holding the
configuration object it returned.

Components of the pipeline that the repository snapshot does not contain
(the comparison engine, the flakiness retry controller and the upload
coordinator live outside `src/`) are modelled from the specification text;
each such definition carries a doc comment starting with
`Modelled from the spec:`.
-/

namespace LostPixel

/-- A JavaScript value as seen by the configuration layer: `undefined`,
booleans, numbers (embedded as rationals), strings, arrays, plain objects
(ordered association lists of own properties) and function values (whose
behaviour the config layer never inspects). -/
inductive JsVal where
  | undefined
  | bool (b : Bool)
  | num (q : ℚ)
  | str (s : String)
  | arr (elems : List JsVal)
  | obj (fields : List (String × JsVal))
  | func

/-- Property lookup `o[key]`: the value of the first binding of `key`, or
`undefined` when the key is absent. -/
def lookupField : List (String × JsVal) → String → JsVal
  | [], _ => .undefined
  | (k, v) :: rest, key => if k = key then v else lookupField rest key

/-- `o.key` (or `o?.key`): property access, `undefined` on non-objects. -/
def JsVal.getField : JsVal → String → JsVal
  | .obj fields, key => lookupField fields key
  | _, _ => .undefined

/-- The JavaScript `key in o` test: whether the object has the property,
even when its value is `undefined`. -/
def hasKey (v : JsVal) (key : String) : Bool :=
  match v with
  | .obj fields => fields.any (fun f => f.1 = key)
  | _ => false

/-- Property assignment on the underlying association list: overwrite the
binding when present, append it otherwise. -/
def setFields : List (String × JsVal) → String → JsVal → List (String × JsVal)
  | [], key, v => [(key, v)]
  | (k, w) :: rest, key, v =>
      if k = key then (k, v) :: rest else (k, w) :: setFields rest key v

/-- Property assignment `o.key = v` (also the effect of a spread
`{ ...o, key: v }`): on non-objects it is a no-op. -/
def JsVal.setField : JsVal → String → JsVal → JsVal
  | .obj fields, key, v => .obj (setFields fields key v)
  | other, _, _ => other

/-- JavaScript truthiness of a value. -/
def truthy : JsVal → Bool
  | .undefined => false
  | .bool b => b
  | .num q => decide (q ≠ 0)
  | .str s => decide (s ≠ "")
  | .arr _ => true
  | .obj _ => true
  | .func => true

/-- The `typeof`-style name zod puts into its error messages. -/
def typeName : JsVal → String
  | .undefined => "undefined"
  | .bool _ => "boolean"
  | .num _ => "number"
  | .str _ => "string"
  | .arr _ => "array"
  | .obj _ => "object"
  | .func => "function"

/-- One zod validation issue: the path of the offending field and a
message. -/
structure Issue where
  path : List String
  message : String

/-- Result of `Schema.safeParse`: the parsed value or the list of issues. -/
abbrev ParseOutcome := Except (List Issue) JsVal

/-- A zod schema, embedded as its `safeParse` function. -/
abbrev Parser := JsVal → ParseOutcome

/-- The generic zod type-mismatch issue: `Required` when the input is
`undefined`, otherwise an expected/received message. -/
def invalid (expected : String) (v : JsVal) : ParseOutcome :=
  match v with
  | .undefined => .error [⟨[], "Required"⟩]
  | _ => .error [⟨[], "Expected " ++ expected ++ ", received " ++ typeName v⟩]

/-- `z.string()`. -/
def zString : Parser := fun v =>
  match v with
  | .str s => .ok (.str s)
  | _ => invalid "string" v

/-- `z.number()`. -/
def zNumber : Parser := fun v =>
  match v with
  | .num q => .ok (.num q)
  | _ => invalid "number" v

/-- `z.boolean()`. -/
def zBoolean : Parser := fun v =>
  match v with
  | .bool b => .ok (.bool b)
  | _ => invalid "boolean" v

/-- `z.function()....`: at parse time zod only checks that the value is a
function (argument and return schemas are enforced lazily on call). -/
def zFunction : Parser := fun v =>
  match v with
  | .func => .ok .func
  | _ => invalid "function" v

/-- `z.record(z.unknown())`: any object is accepted. -/
def zRecord : Parser := fun v =>
  match v with
  | .obj fields => .ok (.obj fields)
  | _ => invalid "object" v

/-- `z.enum([...])`: a string equal to one of the listed literals. -/
def zEnum (vals : List String) : Parser := fun v =>
  match v with
  | .str s => if vals.contains s then .ok (.str s)
              else .error [⟨[], "Invalid enum value"⟩]
  | _ => invalid "string" v

/-- `.optional()`: `undefined` passes through, anything else is parsed by
the inner schema. -/
def zOptional (p : Parser) : Parser := fun v =>
  match v with
  | .undefined => .ok .undefined
  | other => p other

/-- `.default(d)`: an `undefined` input is replaced by the default value,
which is then parsed by the inner schema (this is how the required
platform fields defaulted from unset environment variables still fail
validation). -/
def zDefault (d : JsVal) (p : Parser) : Parser := fun v =>
  match v with
  | .undefined => p d
  | other => p other

/-- Re-root an issue under an object key or array index. -/
def Issue.underKey (k : String) (i : Issue) : Issue :=
  ⟨k :: i.path, i.message⟩

/-- Elementwise parsing of an array, collecting the issues of every
element with its index on the path. -/
def parseElems (p : Parser) : List JsVal → Nat → List Issue × List JsVal
  | [], _ => ([], [])
  | x :: xs, i =>
      let r := p x
      let rest := parseElems p xs (i + 1)
      match r with
      | .ok w => (rest.1, w :: rest.2)
      | .error es => (es.map (Issue.underKey (toString i)) ++ rest.1, rest.2)

/-- `z.array(p)`. -/
def zArray (p : Parser) : Parser := fun v =>
  match v with
  | .arr xs =>
      let r := parseElems p xs 0
      if r.1.isEmpty then .ok (.arr r.2) else .error r.1
  | _ => invalid "array" v

/-- Parsing of an object against a shape: every field of the shape is
parsed (missing keys read as `undefined`), all issues are collected with
the key on the path, and — matching zod — a key appears in the output
unless it was absent from the input and parsed to `undefined`. -/
def parseFields (fields : List (String × JsVal)) :
    List (String × Parser) → List Issue × List (String × JsVal)
  | [] => ([], [])
  | (key, p) :: shape =>
      let present := fields.any (fun f => f.1 = key)
      let r := p (lookupField fields key)
      let rest := parseFields fields shape
      match r with
      | .ok .undefined =>
          (rest.1, if present then (key, .undefined) :: rest.2 else rest.2)
      | .ok w => (rest.1, (key, w) :: rest.2)
      | .error es => (es.map (Issue.underKey key) ++ rest.1, rest.2)

/-- `z.object({...})` (with zod's default unknown-key stripping). -/
def zObject (shape : List (String × Parser)) : Parser := fun v =>
  match v with
  | .obj fields =>
      let r := parseFields fields shape
      if r.1.isEmpty then .ok (.obj r.2) else .error r.1
  | _ => invalid "object" v

/-- `MaskSchema` of `config.ts`. -/
def MaskSchema : Parser := zObject [("selector", zString)]

/-- `PageScreenshotParameterSchema` of `config.ts`. -/
def PageScreenshotParameterSchema : Parser := zObject
  [ ("path", zString),
    ("name", zString),
    ("waitBeforeScreenshot", zDefault (.num 1000) zNumber),
    ("threshold", zDefault (.num 0) zNumber),
    ("breakpoints", zArray zNumber),
    ("viewport", zOptional (zObject
      [ ("width", zOptional zNumber),
        ("height", zOptional zNumber) ])),
    ("mask", zOptional (zArray MaskSchema)) ]

/-- `StorybookShotsSchema` of `config.ts`. -/
def StorybookShotsSchema : Parser := zObject
  [ ("storybookUrl", zString),
    ("mask", zOptional (zArray MaskSchema)),
    ("breakpoints", zOptional (zArray zNumber)) ]

/-- `LadleShotsSchema` of `config.ts`. -/
def LadleShotsSchema : Parser := zObject
  [ ("ladleUrl", zString),
    ("mask", zOptional (zArray MaskSchema)),
    ("breakpoints", zOptional (zDefault (.arr []) (zArray zNumber))) ]

/-- `HistoireShotsSchema` of `config.ts`. -/
def HistoireShotsSchema : Parser := zObject
  [ ("histoireUrl", zString),
    ("mask", zOptional (zArray MaskSchema)),
    ("breakpoints", zOptional (zArray zNumber)) ]

/-- `PageShotsSchema` of `config.ts`. -/
def PageShotsSchema : Parser := zObject
  [ ("pages", zArray PageScreenshotParameterSchema),
    ("pagesJsonUrl", zOptional zString),
    ("baseUrl", zString),
    ("mask", zOptional (zArray MaskSchema)),
    ("breakpoints", zOptional (zArray zNumber)) ]

/-- `CustomShotsSchema` of `config.ts`. -/
def CustomShotsSchema : Parser := zObject
  [ ("currentShotsPath", zString) ]

/-- `TimeoutsSchema` of `config.ts`. -/
def TimeoutsSchema : Parser := zObject
  [ ("fetchStories", zDefault (.num 30000) zNumber),
    ("loadState", zDefault (.num 30000) zNumber),
    ("networkRequests", zDefault (.num 30000) zNumber) ]

/-- The shape of `BaseConfigSchema` of `config.ts`, field for field in
source order. -/
def baseConfigShape : List (String × Parser) :=
  [ ("browser", zDefault (.str "chromium")
      (zEnum ["chromium", "firefox", "webkit"])),
    ("storybookShots", zOptional StorybookShotsSchema),
    ("ladleShots", zOptional LadleShotsSchema),
    ("histoireShots", zOptional HistoireShotsSchema),
    ("pageShots", zOptional PageShotsSchema),
    ("customShots", zOptional CustomShotsSchema),
    ("imagePathCurrent", zDefault (.str ".lostpixel/current/") zString),
    ("breakpoints", zDefault (.arr []) (zArray zNumber)),
    ("shotConcurrency", zDefault (.num 5) zNumber),
    ("timeouts", zDefault
      (.obj [ ("fetchStories", .num 30000),
              ("loadState", .num 30000),
              ("networkRequests", .num 30000) ]) TimeoutsSchema),
    ("waitBeforeScreenshot", zDefault (.num 1000) zNumber),
    ("waitForFirstRequest", zDefault (.num 1000) zNumber),
    ("waitForLastRequest", zDefault (.num 1000) zNumber),
    ("threshold", zDefault (.num 0) zNumber),
    ("flakynessRetries", zDefault (.num 0) zNumber),
    ("waitBetweenFlakynessRetries", zDefault (.num 2000) zNumber),
    ("filterShot", zOptional zFunction),
    ("shotNameGenerator", zOptional zFunction),
    ("configureBrowser", zOptional zFunction),
    ("beforeScreenshot", zOptional zFunction) ]

/-- `BaseConfigSchema` of `config.ts`. -/
def BaseConfigSchema : Parser := zObject baseConfigShape

/-- The environment variables read by `PlatformModeConfigSchema` as
defaults (`process.env.CI_BUILD_ID` and friends); each is a string or
`undefined`. -/
structure EnvVars where
  CI_BUILD_ID : JsVal
  CI_BUILD_NUMBER : JsVal
  REPOSITORY : JsVal
  COMMIT_REF_NAME : JsVal
  COMMIT_HASH : JsVal

/-- The shape of `PlatformModeConfigSchema` of `config.ts`:
`BaseConfigSchema.extend({...})`. -/
def platformModeShape (env : EnvVars) : List (String × Parser) :=
  baseConfigShape ++
  [ ("lostPixelPlatform", zDefault (.str "https://api.lost-pixel.com") zString),
    ("apiKey", zString),
    ("lostPixelProjectId", zString),
    ("ciBuildId", zDefault env.CI_BUILD_ID zString),
    ("ciBuildNumber", zDefault env.CI_BUILD_NUMBER zString),
    ("repository", zDefault env.REPOSITORY zString),
    ("commitRefName", zDefault env.COMMIT_REF_NAME zString),
    ("commitHash", zDefault env.COMMIT_HASH zString),
    ("eventFilePath", zOptional zString),
    ("setPendingStatusCheck", zDefault (.bool false) zBoolean) ]

/-- `PlatformModeConfigSchema` of `config.ts`. -/
def PlatformModeConfigSchema (env : EnvVars) : Parser :=
  zObject (platformModeShape env)

/-- The shape of `GenerateOnlyModeConfigSchema` of `config.ts`:
`BaseConfigSchema.extend({...})`. -/
def generateOnlyShape : List (String × Parser) :=
  baseConfigShape ++
  [ ("generateOnly", zOptional zBoolean),
    ("failOnDifference", zOptional zBoolean),
    ("imagePathBaseline", zDefault (.str ".lostpixel/baseline/") zString),
    ("imagePathDifference", zDefault (.str ".lostpixel/difference/") zString),
    ("compareConcurrency", zDefault (.num 10) zNumber),
    ("compareEngine", zDefault (.str "pixelmatch")
      (zEnum ["pixelmatch", "odiff"])) ]

/-- `GenerateOnlyModeConfigSchema` of `config.ts`. -/
def GenerateOnlyModeConfigSchema : Parser := zObject generateOnlyShape

/-- `MEDIA_UPLOAD_CONCURRENCY` of `config.ts` (line 470). -/
def MEDIA_UPLOAD_CONCURRENCY : ℕ := 10

/-- `isPlatformModeConfig` of `config.ts`:
`'apiKey' in userConfig || 'lostPixelProjectId' in userConfig`. -/
def isPlatformModeConfig (userConfig : JsVal) : Bool :=
  hasKey userConfig "apiKey" || hasKey userConfig "lostPixelProjectId"

/-- `printConfigErrors` of `config.ts`, with the lines handed to
`log.process` collected into a list, one entry per issue. -/
def printConfigErrors (issues : List Issue) : List String :=
  issues.map fun issue =>
    "Configuration error:\n" ++
    "  - Path: " ++ String.intercalate "." issue.path ++ "\n" ++
    "  - Message: " ++ issue.message

/-- Outcome of `parseConfig`: either the validated configuration, or the
process exiting with the given code after printing the given lines. -/
inductive ParseResult where
  | ok (cfg : JsVal)
  | exited (printed : List String) (exitCode : ℕ)

/-- Whether a `ParseResult` returned a configuration. -/
def ParseResult.isOk : ParseResult → Bool
  | .ok _ => true
  | .exited _ _ => false

/-- The configuration a successful `ParseResult` carries (`undefined`
when the process exited). -/
def ParseResult.getConfig : ParseResult → JsVal
  | .ok cfg => cfg
  | .exited _ _ => .undefined

/-- `parseConfig` of `config.ts`: pick the schema by
`isPlatformModeConfig`, return the parsed data on success, otherwise
print every issue and `process.exit(1)`. -/
def parseConfig (env : EnvVars) (userConfig : JsVal) : ParseResult :=
  if isPlatformModeConfig userConfig then
    match PlatformModeConfigSchema env userConfig with
    | .ok data => .ok data
    | .error err => .exited (printConfigErrors err) 1
  else
    match GenerateOnlyModeConfigSchema userConfig with
    | .ok data => .ok data
    | .error err => .exited (printConfigErrors err) 1

/-- The `urlChunks` array of `configure` in `config.ts`. -/
def urlChunks : List String := ["http://", "https://", "127.0.0.1"]

/-- Whether the first character sequence is an initial segment of the
second. -/
def startsWithSeq : List Char → List Char → Bool
  | [], _ => true
  | _ :: _, [] => false
  | a :: as, b :: bs => a == b && startsWithSeq as bs

/-- Whether the first character sequence occurs contiguously inside the
second. -/
def hasSubSeq (needle : List Char) : List Char → Bool
  | [] => startsWithSeq needle []
  | c :: cs => startsWithSeq needle (c :: cs) || hasSubSeq needle cs

/-- The JavaScript `hay.includes(needle)` substring test. -/
def includesSubstr (hay needle : String) : Bool :=
  hasSubSeq needle.data hay.data

/-- Modelled from the spec: the WHATWG `URL` hostname assignment used by
`configure` (`url.hostname = 'localhost'; url.toString()`), which is part
of the JavaScript runtime, not of this repository.  Restricted to URLs of
the simple shape `scheme://host[:port]rest` that the page-shot base URLs
take: the host part between `://` and the first `/` (or `:`) is replaced
by `localhost`, everything else is kept verbatim. -/
def rewriteHostLocalhost (u : String) : String :=
  match u.splitOn "://" with
  | [scheme, rest] =>
      let hostPort := rest.takeWhile (fun c => c ≠ '/')
      let tail := rest.drop hostPort.length
      let portPart :=
        match hostPort.splitOn ":" with
        | _host :: p :: ps => ":" ++ String.intercalate ":" (p :: ps)
        | _ => ""
      scheme ++ "://" ++ "localhost" ++ portPart ++ tail
  | _ => u

/-- The `localDebugMode` branch of `configure` in `config.ts`: a platform
mode config gets `generateOnly: true` and has `lostPixelProjectId` and
`apiKey` overwritten with `undefined` by the object spread (the keys
remain own properties of the object); then, when `pageShots.baseUrl` is a
truthy string containing one of `urlChunks`, its hostname is rewritten to
`localhost`. -/
def applyLocalDebug (loadedProjectConfig : JsVal) : JsVal :=
  let localDebugConfig :=
    if isPlatformModeConfig loadedProjectConfig then
      ((loadedProjectConfig.setField "generateOnly" (.bool true)
        ).setField "lostPixelProjectId" .undefined
        ).setField "apiKey" .undefined
    else loadedProjectConfig
  match (localDebugConfig.getField "pageShots").getField "baseUrl" with
  | .str u =>
      if truthy (.str u) &&
         urlChunks.any (fun urlChunk => includesSubstr u urlChunk) then
        localDebugConfig.setField "pageShots"
          ((localDebugConfig.getField "pageShots").setField "baseUrl"
            (.str (rewriteHostLocalhost u)))
      else localDebugConfig
  | _ => localDebugConfig

/-- The object `configure` assigns to `storybookShots` when no mode is
defined. -/
def defaultStorybookShots : JsVal :=
  .obj [("storybookUrl", .str "storybook-static")]

/-- `configure` of `config.ts`.  The `await loadProjectConfig()` call is
replaced by the `loadedProjectConfig` parameter holding the object it
returned; the assignment to the `config` singleton becomes the returned
`ParseResult`.  When a `customProjectConfig` is passed it is parsed
directly; otherwise the loaded config goes through the local-debug
transformation (when `localDebugMode` is set), is defaulted to Storybook
mode when none of the five shot sources is truthy, and is then parsed. -/
def configure (env : EnvVars) (customProjectConfig : Option JsVal)
    (loadedProjectConfig : JsVal) (localDebugMode : Bool) : ParseResult :=
  match customProjectConfig with
  | some cfg => parseConfig env cfg
  | none =>
      let afterDebug :=
        if localDebugMode then applyLocalDebug loadedProjectConfig
        else loadedProjectConfig
      let withDefaultMode :=
        if !truthy (afterDebug.getField "storybookShots") &&
           !truthy (afterDebug.getField "pageShots") &&
           !truthy (afterDebug.getField "ladleShots") &&
           !truthy (afterDebug.getField "histoireShots") &&
           !truthy (afterDebug.getField "customShots") then
          afterDebug.setField "storybookShots" defaultStorybookShots
        else afterDebug
      parseConfig env withDefaultMode

/-- Status of one image comparison as far as the threshold decision is
concerned. -/
inductive CompareStatus where
  | failed
  | passed

/-- Modelled from the spec: the Comparison Engine threshold decision
(the engine itself is not part of this repository snapshot).  Quoting the
spec: effective limit = `threshold < 1 ? threshold × total : threshold`
where `total = width × height` of the compared image. -/
def effectiveLimit (threshold total : ℚ) : ℚ :=
  if threshold < 1 then threshold * total else threshold

/-- Modelled from the spec: `status = failed` iff
`diffPixelCount > effectiveLimit`, otherwise `status = passed`. -/
def thresholdDecision (diffPixelCount : ℕ) (threshold : ℚ)
    (width height : ℕ) : CompareStatus :=
  if (diffPixelCount : ℚ) > effectiveLimit threshold ((width * height : ℕ) : ℚ)
  then .failed else .passed

/-- Modelled from the spec: the Flakiness Retry Controller (not part of
this repository snapshot).  One capture attempt plus up to `budget`
additional attempts; an attempt judged stable ends the loop, otherwise
the controller waits `waitBetweenFlakynessRetries` milliseconds and
retries; once the budget is exhausted the last attempt's result is used
unconditionally.  Returns the number of attempts taken, the list of waits
performed (in milliseconds) and the stability verdict of the attempt
whose result was used; `stable i` is the instability oracle for the
`i`-th attempt. -/
def runWithRetries (waitBetweenFlakynessRetries : ℕ) (stable : ℕ → Bool) :
    (budget : ℕ) → (attemptIndex : ℕ) → ℕ × List ℕ × Bool
  | 0, i => (1, [], stable i)
  | b + 1, i =>
      if stable i then (1, [], true)
      else
        let rest := runWithRetries waitBetweenFlakynessRetries stable b (i + 1)
        (rest.1 + 1, waitBetweenFlakynessRetries :: rest.2.1, rest.2.2)

/-- Modelled from the spec: the Upload Coordinator enqueues artifact
uploads "bounded by a fixed upload concurrency"; the bound is the
`MEDIA_UPLOAD_CONCURRENCY` constant of `config.ts` and does not read the
parsed configuration. -/
def uploadPoolLimit (_config : JsVal) : ℕ := MEDIA_UPLOAD_CONCURRENCY

/-- A concrete environment with every CI variable set, used by witnesses
and counterexamples. -/
def env0 : EnvVars :=
  ⟨.str "build-1", .str "42", .str "org/repo", .str "main", .str "abc123"⟩

/-- A configuration enabling three shot-source families at once. -/
def multiFamilyConfig : JsVal := .obj
  [ ("storybookShots", .obj [("storybookUrl", .str "storybook-static")]),
    ("pageShots", .obj
      [ ("pages", .arr []),
        ("baseUrl", .str "http://localhost:3000") ]),
    ("customShots", .obj [("currentShotsPath", .str "custom-shots")]) ]

/-- A platform-mode configuration whose `apiKey` has the wrong type and
whose `lostPixelProjectId` is missing. -/
def invalidPlatformConfig : JsVal := .obj [("apiKey", .num 5)]

/-- The issues `PlatformModeConfigSchema` reports on
`invalidPlatformConfig` under `env0`. -/
def invalidPlatformIssues : List Issue :=
  [ ⟨["apiKey"], "Expected string, received number"⟩,
    ⟨["lostPixelProjectId"], "Required"⟩ ]

/-- A generate-only configuration whose only explicit field is
`compareEngine`, set to the given value. -/
def engineConfig (v : JsVal) : JsVal := .obj [("compareEngine", v)]

/-- Whether a `safeParse` outcome succeeded. -/
def parseOk : ParseOutcome → Bool
  | .ok _ => true
  | .error _ => false

/-- The value `GenerateOnlyModeConfigSchema` produces on `engineConfig`
inputs whose engine string is accepted: every defaulted field filled in,
`compareEngine` carrying the accepted string. -/
def engineParsedOutput (s : String) : JsVal := .obj
  [ ("browser", .str "chromium"),
    ("imagePathCurrent", .str ".lostpixel/current/"),
    ("breakpoints", .arr []),
    ("shotConcurrency", .num 5),
    ("timeouts", .obj
      [ ("fetchStories", .num 30000),
        ("loadState", .num 30000),
        ("networkRequests", .num 30000) ]),
    ("waitBeforeScreenshot", .num 1000),
    ("waitForFirstRequest", .num 1000),
    ("waitForLastRequest", .num 1000),
    ("threshold", .num 0),
    ("flakynessRetries", .num 0),
    ("waitBetweenFlakynessRetries", .num 2000),
    ("imagePathBaseline", .str ".lostpixel/baseline/"),
    ("imagePathDifference", .str ".lostpixel/difference/"),
    ("compareConcurrency", .num 10),
    ("compareEngine", .str s) ]

/-- A loaded platform-mode configuration fed to `configure` in local
debug mode. -/
def debugPlatformConfig : JsVal :=
  .obj [ ("apiKey", .str "platform-key"),
         ("lostPixelProjectId", .str "proj-1") ]

/-- A capture-stability oracle that judges every attempt unstable. -/
def alwaysUnstable : ℕ → Bool := fun _ => false

/-- Helper: under an always-unstable oracle, the retry controller with
budget `b` makes exactly `b + 1` attempts from any starting index,
waiting between consecutive attempts, and uses the last (still unstable)
verdict. -/
theorem runWithRetries_always_unstable (w : ℕ) (s : ℕ → Bool)
    (h : ∀ i, s i = false) :
    ∀ b i, runWithRetries w s b i = (b + 1, List.replicate b w, false)
  | 0, i => by simp [runWithRetries, h i]
  | b + 1, i => by
      simp [runWithRetries, h i, List.replicate_succ,
        runWithRetries_always_unstable w s h b (i + 1)]

/-- Helper: whatever the stability oracle does, the retry controller with
budget `b` never makes more than `b + 1` attempts. -/
theorem runWithRetries_attempts_le (w : ℕ) (s : ℕ → Bool) :
    ∀ b i, (runWithRetries w s b i).1 ≤ b + 1
  | 0, _ => by simp [runWithRetries]
  | b + 1, i => by
      have hle := runWithRetries_attempts_le w s b (i + 1)
      by_cases hs : s i = true
      · simp [runWithRetries, hs]
      · have hs' : s i = false := by simpa using hs
        simp [runWithRetries, hs']
        omega

/-- C1 counterexample: a loaded configuration with zero enabled shot
sources is not rejected by `configure`; it is accepted, with
`storybookShots` silently defaulted to the static Storybook folder. -/
theorem configure_zero_sources_accepted :
    (configure env0 none (.obj []) false).isOk = true ∧
    ((configure env0 none (.obj []) false).getConfig).getField
        "storybookShots" = defaultStorybookShots :=
  ⟨rfl, rfl⟩

/-- C1 (amended): when none of the five shot sources of the loaded
configuration is truthy, `configure` raises no error: it sets
`storybookShots` to `{ storybookUrl: 'storybook-static' }` and hands the
result to `parseConfig` (Storybook mode is the default, zero enabled
sources is not a fatal configuration error). -/
theorem configure_zero_sources_defaults_storybook
    (env : EnvVars) (loaded : JsVal)
    (h1 : truthy (loaded.getField "storybookShots") = false)
    (h2 : truthy (loaded.getField "pageShots") = false)
    (h3 : truthy (loaded.getField "ladleShots") = false)
    (h4 : truthy (loaded.getField "histoireShots") = false)
    (h5 : truthy (loaded.getField "customShots") = false) :
    configure env none loaded false =
      parseConfig env (loaded.setField "storybookShots" defaultStorybookShots) := by
  simp [configure, h1, h2, h3, h4, h5]

/-- C1 witness: the amended statement applied to the empty configuration
object. -/
theorem configure_zero_sources_defaults_storybook_witness :
    configure env0 none (.obj []) false =
      parseConfig env0 ((JsVal.obj []).setField "storybookShots"
        defaultStorybookShots) :=
  configure_zero_sources_defaults_storybook env0 (.obj []) rfl rfl rfl rfl rfl

/-- C2: the effective pixel limit is `threshold × total` for thresholds
below 1 (fractional tolerance) and `threshold` itself from 1 upwards
(absolute pixel-count tolerance), and the comparison fails exactly when
`diffPixelCount` exceeds that limit, passing otherwise. -/
theorem threshold_decision_spec (width height diffPixelCount : ℕ)
    (threshold : ℚ) :
    (threshold < 1 →
      effectiveLimit threshold ((width * height : ℕ) : ℚ) =
        threshold * ((width * height : ℕ) : ℚ)) ∧
    (1 ≤ threshold →
      effectiveLimit threshold ((width * height : ℕ) : ℚ) = threshold) ∧
    (thresholdDecision diffPixelCount threshold width height = .failed ↔
      (diffPixelCount : ℚ) >
        effectiveLimit threshold ((width * height : ℕ) : ℚ)) ∧
    (thresholdDecision diffPixelCount threshold width height = .passed ↔
      ¬ ((diffPixelCount : ℚ) >
        effectiveLimit threshold ((width * height : ℕ) : ℚ))) := by
  refine ⟨fun h => by simp [effectiveLimit, h],
          fun h => by simp [effectiveLimit, not_lt.mpr h], ?_, ?_⟩
  · unfold thresholdDecision
    split <;> simp_all
  · unfold thresholdDecision
    split <;> simp_all

/-- C2 witness: a 10×10 image with fractional threshold 1/2 has effective
limit 50, so 51 differing pixels fail and 50 pass; an absolute threshold
of 3 is its own limit. -/
theorem threshold_decision_spec_witness :
    effectiveLimit (1 / 2) ((10 * 10 : ℕ) : ℚ) =
      (1 / 2) * ((10 * 10 : ℕ) : ℚ) ∧
    effectiveLimit 3 ((10 * 10 : ℕ) : ℚ) = 3 ∧
    thresholdDecision 51 (1 / 2) 10 10 = .failed ∧
    thresholdDecision 50 (1 / 2) 10 10 = .passed :=
  ⟨(threshold_decision_spec 10 10 51 (1 / 2)).1 (by norm_num),
   (threshold_decision_spec 10 10 51 3).2.1 (by norm_num),
   (threshold_decision_spec 10 10 51 (1 / 2)).2.2.1.mpr
     (by norm_num [effectiveLimit]),
   (threshold_decision_spec 10 10 50 (1 / 2)).2.2.2.mpr
     (by norm_num [effectiveLimit])⟩

/-- C3: with `flakynessRetries = n`, a target judged unstable on every
attempt is attempted exactly `n + 1` times with a
`waitBetweenFlakynessRetries`-millisecond wait between consecutive
attempts (so `n` waits), and the last attempt's (still unstable) result
is used; moreover no oracle ever causes more than `n + 1` attempts. -/
theorem flakyness_retries_budget (n w : ℕ) (s : ℕ → Bool)
    (h : ∀ i, s i = false) :
    runWithRetries w s n 0 = (n + 1, List.replicate n w, false) ∧
    ∀ oracle : ℕ → Bool, (runWithRetries w oracle n 0).1 ≤ n + 1 :=
  ⟨runWithRetries_always_unstable w s h n 0,
   fun oracle => runWithRetries_attempts_le w oracle n 0⟩

/-- C3 witness: three configured retries on an always-unstable target
give exactly four attempts and three 2000 ms waits. -/
theorem flakyness_retries_budget_witness :
    runWithRetries 2000 alwaysUnstable 3 0 =
      (4, List.replicate 3 2000, false) :=
  (flakyness_retries_budget 3 2000 alwaysUnstable (fun _ => rfl)).1

/-- C5: whenever the schema selected for a configuration reports
validation issues, `parseConfig` prints one line per issue carrying the
issue's dot-joined field path and its message, then exits with the
non-zero code 1, and never returns a configuration. -/
theorem parseConfig_invalid_reports_and_exits (env : EnvVars) (cfg : JsVal)
    (issues : List Issue)
    (h : (if isPlatformModeConfig cfg then PlatformModeConfigSchema env cfg
          else GenerateOnlyModeConfigSchema cfg) = .error issues) :
    parseConfig env cfg =
      .exited (issues.map (fun issue =>
        "Configuration error:\n" ++
        "  - Path: " ++ String.intercalate "." issue.path ++ "\n" ++
        "  - Message: " ++ issue.message)) 1 ∧
    (∀ data, parseConfig env cfg ≠ .ok data) ∧ (1 : ℕ) ≠ 0 := by
  by_cases hp : isPlatformModeConfig cfg = true
  · simp only [hp, if_true] at h
    refine ⟨by simp [parseConfig, hp, h, printConfigErrors], ?_, by decide⟩
    intro data
    simp [parseConfig, hp, h]
  · simp only [hp, if_false, Bool.false_eq_true] at h
    refine ⟨by simp [parseConfig, hp, h, printConfigErrors], ?_, by decide⟩
    intro data
    simp [parseConfig, hp, h]

/-- C5 witness: a configuration whose `apiKey` is a number and whose
`lostPixelProjectId` is missing makes `parseConfig` print both issues
with their paths and messages and exit with code 1. -/
theorem parseConfig_invalid_reports_and_exits_witness :
    parseConfig env0 invalidPlatformConfig =
      .exited
        [ "Configuration error:\n  - Path: apiKey\n  - Message: Expected string, received number",
          "Configuration error:\n  - Path: lostPixelProjectId\n  - Message: Required" ] 1 :=
  (parseConfig_invalid_reports_and_exits env0 invalidPlatformConfig
    invalidPlatformIssues rfl).1

/-- C6 counterexample: a configuration enabling the story-catalog, the
page-list and the custom-folder families simultaneously is accepted by
configuration parsing, with all three sources still enabled in the parsed
result — no at-most-one-primary-family restriction is enforced. -/
theorem multi_family_config_accepted :
    (parseConfig env0 multiFamilyConfig).isOk = true ∧
    truthy (((parseConfig env0 multiFamilyConfig).getConfig).getField
      "storybookShots") = true ∧
    truthy (((parseConfig env0 multiFamilyConfig).getConfig).getField
      "pageShots") = true ∧
    truthy (((parseConfig env0 multiFamilyConfig).getConfig).getField
      "customShots") = true :=
  ⟨rfl, rfl, rfl, rfl⟩

/-- C6 (amended): the configuration schema places no mutual-exclusion
restriction on the shot-source families; under every environment a
configuration enabling the story-catalog, page-list and custom-folder
families at once passes validation with all three enabled. -/
theorem schema_allows_multiple_families (env : EnvVars) :
    (parseConfig env multiFamilyConfig).isOk = true ∧
    truthy (((parseConfig env multiFamilyConfig).getConfig).getField
      "storybookShots") = true ∧
    truthy (((parseConfig env multiFamilyConfig).getConfig).getField
      "pageShots") = true ∧
    truthy (((parseConfig env multiFamilyConfig).getConfig).getField
      "customShots") = true :=
  ⟨rfl, rfl, rfl, rfl⟩

/-- Helper: an engine string other than the two enum literals makes the
generate-only schema reject the configuration with a single issue at
`compareEngine`. -/
theorem genOnly_engine_reject (s : String)
    (h1 : s ≠ "pixelmatch") (h2 : s ≠ "odiff") :
    GenerateOnlyModeConfigSchema (engineConfig (.str s)) =
      .error [⟨["compareEngine"], "Invalid enum value"⟩] := by
  simp [GenerateOnlyModeConfigSchema, engineConfig, generateOnlyShape,
    baseConfigShape, zObject, parseFields, lookupField, zOptional, zDefault,
    zString, zNumber, zBoolean, zFunction, zEnum, zArray, parseElems,
    invalid, Issue.underKey, StorybookShotsSchema, LadleShotsSchema,
    HistoireShotsSchema, PageShotsSchema, CustomShotsSchema, TimeoutsSchema,
    MaskSchema, PageScreenshotParameterSchema, List.contains, h1, h2]

/-- C7: `compareEngine` accepts exactly the strings `pixelmatch` and
`odiff` — any other string is rejected by configuration parsing — and an
unset `compareEngine` defaults to `pixelmatch` in the parsed output. -/
theorem compareEngine_enum_spec (s : String) :
    GenerateOnlyModeConfigSchema (engineConfig (.str s)) =
      (if s = "pixelmatch" ∨ s = "odiff"
       then .ok (engineParsedOutput s)
       else .error [⟨["compareEngine"], "Invalid enum value"⟩]) ∧
    GenerateOnlyModeConfigSchema (engineConfig .undefined) =
      .ok (engineParsedOutput "pixelmatch") ∧
    GenerateOnlyModeConfigSchema (.obj []) =
      .ok (engineParsedOutput "pixelmatch") := by
  refine ⟨?_, rfl, rfl⟩
  by_cases h1 : s = "pixelmatch"
  · subst h1
    rw [if_pos (Or.inl rfl)]
    exact rfl
  · by_cases h2 : s = "odiff"
    · subst h2
      rw [if_pos (Or.inr rfl)]
      exact rfl
    · rw [if_neg (by simp [h1, h2])]
      exact genOnly_engine_reject s h1 h2

/-- C8: the artifact-upload pool limit is the fixed constant
`MEDIA_UPLOAD_CONCURRENCY = 10`, identical for every parsed
configuration, and no field of either user-facing configuration schema
even mentions an upload bound. -/
theorem media_upload_concurrency_fixed :
    MEDIA_UPLOAD_CONCURRENCY = 10 ∧
    (∀ config : JsVal, uploadPoolLimit config = MEDIA_UPLOAD_CONCURRENCY) ∧
    (∀ env : EnvVars,
      ((platformModeShape env).map Prod.fst).all
        (fun key => !includesSubstr key "pload") = true) ∧
    ((generateOnlyShape.map Prod.fst).all
      (fun key => !includesSubstr key "pload") = true) :=
  ⟨rfl, fun _ => rfl, fun _ => rfl, rfl⟩

/-- C9: `isPlatformModeConfig` holds exactly when the configuration
object has an `apiKey` or a `lostPixelProjectId` property, and
`parseConfig` validates against the platform-mode schema exactly in that
case (otherwise against the generate-only schema); a configuration
carrying only an `apiKey` is classified as platform mode. -/
theorem isPlatformModeConfig_branch_spec (env : EnvVars)
    (fields : List (String × JsVal)) :
    (isPlatformModeConfig (.obj fields) = true ↔
      hasKey (.obj fields) "apiKey" = true ∨
      hasKey (.obj fields) "lostPixelProjectId" = true) ∧
    ((hasKey (.obj fields) "apiKey" = true ∨
      hasKey (.obj fields) "lostPixelProjectId" = true) →
      parseConfig env (.obj fields) =
        (match PlatformModeConfigSchema env (.obj fields) with
         | .ok data => .ok data
         | .error err => .exited (printConfigErrors err) 1)) ∧
    (¬ (hasKey (.obj fields) "apiKey" = true ∨
        hasKey (.obj fields) "lostPixelProjectId" = true) →
      parseConfig env (.obj fields) =
        (match GenerateOnlyModeConfigSchema (.obj fields) with
         | .ok data => .ok data
         | .error err => .exited (printConfigErrors err) 1)) ∧
    isPlatformModeConfig (.obj [("apiKey", .str "some-key")]) = true := by
  refine ⟨by simp [isPlatformModeConfig], ?_, ?_, rfl⟩
  · intro h
    have hp : isPlatformModeConfig (.obj fields) = true := by
      simp [isPlatformModeConfig]
      tauto
    simp [parseConfig, hp]
  · intro h
    rw [not_or] at h
    have ha : hasKey (JsVal.obj fields) "apiKey" = false := by
      simpa using h.1
    have hb : hasKey (JsVal.obj fields) "lostPixelProjectId" = false := by
      simpa using h.2
    have hp : isPlatformModeConfig (.obj fields) = false := by
      simp [isPlatformModeConfig, ha, hb]
    simp [parseConfig, hp]

/-- C9 witness: the configuration carrying only an `apiKey` is validated
against the platform-mode schema — whose remaining required field then
fails — rather than against the generate-only schema. -/
theorem isPlatformModeConfig_branch_spec_witness :
    parseConfig env0 (.obj [("apiKey", .str "some-key")]) =
      .exited (printConfigErrors [⟨["lostPixelProjectId"], "Required"⟩]) 1 :=
  (isPlatformModeConfig_branch_spec env0
    [("apiKey", .str "some-key")]).2.1 (Or.inl rfl)

/-- C10: in local debug mode a loaded platform-mode configuration gets
`generateOnly: true`, but `apiKey` and `lostPixelProjectId` are not
removed — the spread leaves both keys present with value `undefined` —
so the transformed object is still classified as platform mode, and
`configure` then fails platform validation and exits with code 1 instead
of running in generate-only mode. -/
theorem localDebug_platform_config_fatal :
    (applyLocalDebug debugPlatformConfig).getField "generateOnly" =
      .bool true ∧
    hasKey (applyLocalDebug debugPlatformConfig) "apiKey" = true ∧
    hasKey (applyLocalDebug debugPlatformConfig) "lostPixelProjectId" = true ∧
    (applyLocalDebug debugPlatformConfig).getField "apiKey" = .undefined ∧
    (applyLocalDebug debugPlatformConfig).getField "lostPixelProjectId" =
      .undefined ∧
    isPlatformModeConfig (applyLocalDebug debugPlatformConfig) = true ∧
    configure env0 none debugPlatformConfig true =
      .exited
        [ "Configuration error:\n  - Path: apiKey\n  - Message: Required",
          "Configuration error:\n  - Path: lostPixelProjectId\n  - Message: Required" ] 1 :=
  ⟨rfl, rfl, rfl, rfl, rfl, rfl, rfl⟩

end LostPixel
